import Mathlib

/-!
Verification of the groovylint wrapper script (run_codenarc.py).

The script has two parts:
* the report printer (`parse_xml_report` and its helpers), which walks the
  dictionary produced by `xmltodict.parse` over the CodeNarc XML report and
  prints one line per violation, returning the total violation count;
* the invoker (`run_codenarc`), which builds the external process invocation,
  inspects the captured output, the exit code and the report file on disk, and
  either returns the report text or raises a ValueError, always deleting the
  report file.

The embedding starts at the parsed XML tree: `xmltodict` is a third-party
library, so its output is modelled directly.  A value produced by `xmltodict`
for a repeated element is either a list (several children) or the bare child
object (exactly one child); `OneOrMany` models that ambiguity.  A key that may
be absent from a dictionary (a package with no `File` children, a file with no
`Violation` children) is modelled as an `Option` field; reading an absent key
raises `KeyError` in Python, which the embedding renders as `Option.none`
propagating through the traversal.  Printing is modelled by returning the list
of printed lines together with the computed count.
-/

set_option autoImplicit false

namespace Groovylint

/-- An xmltodict value for a repeated element: a list when the element has
several children, the bare object when it has exactly one. -/
inductive OneOrMany (α : Type) where
  | one : α → OneOrMany α
  | many : List α → OneOrMany α
  deriving Repr, DecidableEq

/-- A `Violation` element: attributes `@ruleName` and `@lineNumber` and the
child `Message`.  xmltodict represents attribute values as strings. -/
structure Violation where
  ruleName : String
  lineNumber : String
  message : String
  deriving Repr, DecidableEq

/-- A `File` element: attribute `@name`, and the `Violation` children.  The
field is `none` when the `File` element has no `Violation` child at all, in
which case the dictionary has no `Violation` key. -/
structure File where
  name : String
  violations : Option (OneOrMany Violation)
  deriving Repr, DecidableEq

/-- A `Package` element: attribute `@path`, and the `File` children; `none`
when the element has no `File` child (no `File` key in the dictionary). -/
structure Package where
  path : String
  files : Option (OneOrMany File)
  deriving Repr, DecidableEq

/-- The parsed report: `CodeNarc > PackageSummary@totalFiles` (an attribute,
hence a string) and the `CodeNarc > Package` children. -/
structure Report where
  totalFiles : String
  packages : OneOrMany Package
  deriving Repr, DecidableEq

/-- Embeds `_safe_list_wrapper`: `element if isinstance(element, list) else
[element]`. -/
def _safe_list_wrapper {α : Type} : OneOrMany α → List α
  | .one a => [a]
  | .many l => l

/-- Embeds `_print_violations`: prints one line per violation, in order, of
the form `<path>:<line>: <ruleName>: <message>`, and returns the number of
violations.  The printed lines are returned as the first component. -/
def _print_violations (package_file_path : String) (violations : List Violation) :
    List String × Nat :=
  (violations.map (fun v =>
      package_file_path ++ ":" ++ v.lineNumber ++ ": " ++ v.ruleName ++ ": " ++ v.message),
   violations.length)

/-- Embeds `_print_violations_in_files`: for each file, reads the `Violation`
key (a `KeyError`, i.e. `none`, when absent) and prints that file's violations
under the path `<package_path>/<name>`, accumulating the count. -/
def _print_violations_in_files (package_path : String) :
    List File → Option (List String × Nat)
  | [] => some ([], 0)
  | f :: rest =>
    match f.violations with
    | none => none
    | some vs =>
      match _print_violations_in_files package_path rest with
      | none => none
      | some r2 =>
        let r1 := _print_violations (package_path ++ "/" ++ f.name) (_safe_list_wrapper vs)
        some (r1.1 ++ r2.1, r1.2 + r2.2)

/-- Embeds `_print_violations_in_packages`: iterates over the packages that
have a `File` key, rewrites an empty `@path` to `"."`, and accumulates each
package's violations. -/
def _print_violations_in_packages : List Package → Option (List String × Nat)
  | [] => some ([], 0)
  | p :: rest =>
    match p.files with
    | none => _print_violations_in_packages rest
    | some fs =>
      let package_path := if p.path = "" then "." else p.path
      match _print_violations_in_files package_path (_safe_list_wrapper fs),
            _print_violations_in_packages rest with
      | some r1, some r2 => some (r1.1 ++ r2.1, r1.2 + r2.2)
      | _, _ => none

/-- Embeds `parse_xml_report`, starting from the parsed tree: prints the
violations while counting them, prints the `Scanned ... files` line, then
either prints `No violations found` and returns 0, or prints the
`Found ... violation(s):` summary, prints the violations a second time, and
returns the count.  The result pairs the full ordered list of printed lines
with the returned status. -/
def parse_xml_report (xml_doc : Report) : Option (List String × Nat) :=
  match _print_violations_in_packages (_safe_list_wrapper xml_doc.packages) with
  | none => none
  | some r1 =>
    let scanned_line := "Scanned " ++ xml_doc.totalFiles ++ " files"
    if r1.2 = 0 then
      some (r1.1 ++ [scanned_line, "No violations found"], 0)
    else
      match _print_violations_in_packages (_safe_list_wrapper xml_doc.packages) with
      | none => none
      | some r2 =>
        some (r1.1 ++ [scanned_line,
                "Found " ++ toString r1.2 ++ " violation(s):"] ++ r2.1,
              r1.2)

/-- Number of violations recorded in a `File` element: zero when the
`Violation` key is absent. -/
def File.numViolations (f : File) : Nat :=
  match f.violations with
  | none => 0
  | some vs => (_safe_list_wrapper vs).length

/-- Number of violations recorded in a `Package` element. -/
def Package.numViolations (p : Package) : Nat :=
  match p.files with
  | none => 0
  | some fs => ((_safe_list_wrapper fs).map File.numViolations).sum

/-- Total number of violations recorded in a report. -/
def Report.totalViolations (r : Report) : Nat :=
  ((_safe_list_wrapper r.packages).map Package.numViolations).sum

/-! ### The invoker (`run_codenarc`)

The invoker's effects are modelled explicitly.  The subprocess result is the
pair of its captured combined output (`stdout=PIPE`, `stderr=STDOUT`) and its
exit code.  The filesystem is abstracted to the single report file the script
touches: `Option String` is its state on disk after the subprocess finished
(`some text` when present with that content, `none` when absent).  The
function returns the Python outcome (report text, or the raised ValueError's
message) together with the final state of the report file. -/

/-- Python substring containment (`needle in hay`) on lists of characters. -/
def listContainsSub (needle : List Char) : List Char → Bool
  | [] => needle.isEmpty
  | c :: rest => needle.isPrefixOf (c :: rest) || listContainsSub needle rest

/-- Embeds the check `'Compilation failed' in str(output.stdout)`. -/
def containsCompilationFailed (s : String) : Bool :=
  listContainsSub "Compilation failed".toList s.toList

/-- The completed subprocess: captured combined output and exit code. -/
structure ProcResult where
  stdout : String
  returncode : Int
  deriving Repr, DecidableEq

/-- Embeds `_remove_report_file`: removes the file when it exists, does
nothing otherwise. -/
def _remove_report_file : Option String → Option String
  | some _ => none
  | none => none

/-- Embeds the part of `run_codenarc` that follows the subprocess call, which
is everything the claims are about: inspect the captured output, the exit
code and the report file, and either return the report text (`Except.ok`) or
raise a ValueError with the given message (`Except.error`).  `report_file` is
the report file's name, `output` the subprocess result, and `disk` the state
of the report file on disk when the subprocess finished.  The second
component of the result is the state of the report file when the function
finishes. -/
def run_codenarc (report_file : String) (output : ProcResult) (disk : Option String) :
    Except String String × Option String :=
  if containsCompilationFailed output.stdout then
    (Except.error "Error when compiling files!", _remove_report_file disk)
  else if output.returncode ≠ 0 then
    (Except.error ("CodeNarc failed with return code " ++ toString output.returncode),
     _remove_report_file disk)
  else
    match disk with
    | none =>
      (Except.error (report_file ++ " was not generated, aborting!"),
       _remove_report_file none)
    | some xml_text => (Except.ok xml_text, _remove_report_file (some xml_text))

/-! ### Construction of the subprocess invocation -/

/-- The arguments `run_codenarc` reads from the parsed command line. -/
structure Args where
  home : String
  groovy_home : String
  codenarc_version : String
  gmetrics_version : String
  slf4j_version : String
  codenarc_options : List String
  deriving Repr, DecidableEq

/-- Embeds the `classpath` list built inside `run_codenarc`. -/
def classpath (args : Args) : List String :=
  [args.home,
   args.groovy_home ++ "/lib/*",
   args.home ++ "/CodeNarc-" ++ args.codenarc_version ++ ".jar",
   args.home ++ "/GMetrics-" ++ args.gmetrics_version ++ ".jar",
   args.home ++ "/slf4j-" ++ args.slf4j_version ++ "/slf4j-api-" ++
     args.slf4j_version ++ ".jar",
   args.home ++ "/slf4j-" ++ args.slf4j_version ++ "/slf4j-simple-" ++
     args.slf4j_version ++ ".jar"]

/-- Embeds the `codenarc_call` list built inside `run_codenarc`: the command
line of the external process. -/
def codenarc_call (args : Args) (report_file : String) : List String :=
  ["java",
   "-classpath",
   String.intercalate ":" (classpath args),
   "org.codenarc.CodeNarc",
   "-rulesetfiles=ruleset.groovy",
   "-report=xml:" ++ report_file] ++ args.codenarc_options

/-! ### Counting lemmas for the printer -/

/-- When the file traversal succeeds, the returned count is the total number
of violations of the traversed files. -/
theorem print_files_count (package_path : String) :
    ∀ (fs : List File) (l : List String) (n : Nat),
      _print_violations_in_files package_path fs = some (l, n) →
      n = (fs.map File.numViolations).sum := by
  intro fs
  induction fs with
  | nil =>
    intro l n h
    simp only [_print_violations_in_files, Option.some.injEq, Prod.mk.injEq] at h
    simp [← h.2]
  | cons f rest ih =>
    intro l n h
    simp only [_print_violations_in_files] at h
    cases hv : f.violations with
    | none => rw [hv] at h; exact absurd h (by simp)
    | some vs =>
      rw [hv] at h
      cases hr : _print_violations_in_files package_path rest with
      | none => rw [hr] at h; exact absurd h (by simp)
      | some r2 =>
        rw [hr] at h
        simp only [Option.some.injEq, Prod.mk.injEq] at h
        have h2 := ih r2.1 r2.2 (by rw [hr])
        simp only [List.map_cons, List.sum_cons, ← h.2, _print_violations,
          File.numViolations, hv]
        omega

/-- When the package traversal succeeds, the returned count is the total
number of violations of the traversed packages. -/
theorem print_packages_count :
    ∀ (ps : List Package) (l : List String) (n : Nat),
      _print_violations_in_packages ps = some (l, n) →
      n = (ps.map Package.numViolations).sum := by
  intro ps
  induction ps with
  | nil =>
    intro l n h
    simp only [_print_violations_in_packages, Option.some.injEq, Prod.mk.injEq] at h
    simp [← h.2]
  | cons p rest ih =>
    intro l n h
    simp only [_print_violations_in_packages] at h
    split at h
    case _ hf =>
      have := ih l n h
      simp [Package.numViolations, hf, this]
    case _ fs hf =>
      split at h
      case _ r1 r2 h1 h2 =>
        simp only [Option.some.injEq, Prod.mk.injEq] at h
        have hc1 := print_files_count _ _ _ _ h1
        have hc2 := ih r2.1 r2.2 h2
        simp only [List.map_cons, List.sum_cons, ← h.2, Package.numViolations, hf]
        omega
      case _ => exact absurd h (by simp)

/-! ### Claim theorems -/

/-- C2: whenever `parse_xml_report` succeeds, its returned status equals the
report's total violation count; when that count is zero it returns 0 and the
no-violations message is among the printed lines, and when it is positive the
violation-count summary line is among the printed lines. -/
theorem parse_xml_report_count (r : Report) (lines : List String) (n : Nat)
    (h : parse_xml_report r = some (lines, n)) :
    n = r.totalViolations ∧
    (n = 0 → "No violations found" ∈ lines) ∧
    (0 < n → ("Found " ++ toString n ++ " violation(s):") ∈ lines) := by
  simp only [parse_xml_report] at h
  cases h1 : _print_violations_in_packages (_safe_list_wrapper r.packages) with
  | none => rw [h1] at h; exact absurd h (by simp)
  | some r1 =>
    rw [h1] at h
    dsimp only at h
    have hcount := print_packages_count _ _ _ h1
    by_cases hz : r1.2 = 0
    · rw [if_pos hz] at h
      simp only [Option.some.injEq, Prod.mk.injEq] at h
      refine ⟨by rw [← h.2, Report.totalViolations, ← hcount, hz], fun _ => ?_, ?_⟩
      · rw [← h.1]; simp
      · intro hpos; rw [← h.2] at hpos; exact absurd hpos (by simp)
    · rw [if_neg hz] at h
      simp only [Option.some.injEq, Prod.mk.injEq] at h
      refine ⟨by rw [← h.2, Report.totalViolations, ← hcount], ?_, fun _ => ?_⟩
      · intro h0; rw [← h.2] at h0; exact absurd h0 hz
      · rw [← h.1, ← h.2]; simp

/-- Witness for C2 at a concrete three-violation report. -/
theorem parse_xml_report_count_witness :
    (3 : Nat) = Report.totalViolations
        ⟨"2", .one ⟨"pkg", some (.many
          [⟨"a.groovy", some (.one ⟨"Rule1", "3", "msg one"⟩)⟩,
           ⟨"b.groovy", some (.many [⟨"Rule1", "3", "msg one"⟩,
             ⟨"Rule2", "7", "msg two"⟩])⟩])⟩⟩ ∧
    ((3 : Nat) = 0 → "No violations found" ∈
      (["pkg/a.groovy:3: Rule1: msg one", "pkg/b.groovy:3: Rule1: msg one",
        "pkg/b.groovy:7: Rule2: msg two", "Scanned 2 files",
        "Found 3 violation(s):", "pkg/a.groovy:3: Rule1: msg one",
        "pkg/b.groovy:3: Rule1: msg one", "pkg/b.groovy:7: Rule2: msg two"])) ∧
    ((0 : Nat) < 3 → ("Found " ++ toString (3 : Nat) ++ " violation(s):") ∈
      (["pkg/a.groovy:3: Rule1: msg one", "pkg/b.groovy:3: Rule1: msg one",
        "pkg/b.groovy:7: Rule2: msg two", "Scanned 2 files",
        "Found 3 violation(s):", "pkg/a.groovy:3: Rule1: msg one",
        "pkg/b.groovy:3: Rule1: msg one", "pkg/b.groovy:7: Rule2: msg two"])) :=
  parse_xml_report_count
    ⟨"2", .one ⟨"pkg", some (.many
      [⟨"a.groovy", some (.one ⟨"Rule1", "3", "msg one"⟩)⟩,
       ⟨"b.groovy", some (.many [⟨"Rule1", "3", "msg one"⟩,
         ⟨"Rule2", "7", "msg two"⟩])⟩])⟩⟩
    ["pkg/a.groovy:3: Rule1: msg one", "pkg/b.groovy:3: Rule1: msg one",
     "pkg/b.groovy:7: Rule2: msg two", "Scanned 2 files",
     "Found 3 violation(s):", "pkg/a.groovy:3: Rule1: msg one",
     "pkg/b.groovy:3: Rule1: msg one", "pkg/b.groovy:7: Rule2: msg two"]
    3 rfl

/-- C1: evaluation of the printer at a report holding exactly one violation.
The claim states that exactly N violation lines are printed, one per
violation; the code instead prints every violation line twice when the count
is nonzero, because `parse_xml_report` runs the printing traversal once to
compute the count and then a second time after the `Found ... violation(s):`
summary.  Here N = 1 and the violation line `pkg/a.groovy:3: Rule1: msg`
appears twice in the output. -/
theorem parse_xml_report_duplicates_lines :
    parse_xml_report
        ⟨"1", .one ⟨"pkg", some (.one ⟨"a.groovy", some (.one ⟨"Rule1", "3", "msg"⟩)⟩)⟩⟩ =
      some (["pkg/a.groovy:3: Rule1: msg",
             "Scanned 1 files",
             "Found 1 violation(s):",
             "pkg/a.groovy:3: Rule1: msg"], 1) := rfl

/-- C7: at each of the three traversal levels, a collection that xmltodict
collapsed to a bare object (`OneOrMany.one x`) is processed exactly like the
corresponding one-element list (`OneOrMany.many [x]`): the printed lines and
the returned count coincide. -/
theorem singleton_collapse_uniform (tf : String) (p : Package) (pkg_path : String)
    (f : File) (rest : List Package) (file_path : String) (nm : String)
    (v : Violation) (frest : List File) :
    parse_xml_report ⟨tf, .one p⟩ = parse_xml_report ⟨tf, .many [p]⟩ ∧
    _print_violations_in_packages (⟨pkg_path, some (.one f)⟩ :: rest) =
      _print_violations_in_packages (⟨pkg_path, some (.many [f])⟩ :: rest) ∧
    _print_violations_in_files file_path (⟨nm, some (.one v)⟩ :: frest) =
      _print_violations_in_files file_path (⟨nm, some (.many [v])⟩ :: frest) :=
  ⟨rfl, rfl, rfl⟩

/-- A file whose dictionary has no `Violation` key makes the file traversal
fail (the Python code raises `KeyError`). -/
theorem print_files_keyerror (package_path : String) :
    ∀ (fs : List File), (∃ f ∈ fs, f.violations = none) →
      _print_violations_in_files package_path fs = none := by
  intro fs
  induction fs with
  | nil => intro h; exact absurd h (by simp)
  | cons f rest ih =>
    intro h
    rcases h with ⟨g, hg, hnone⟩
    rcases List.mem_cons.mp hg with hgf | hgr
    · subst hgf
      simp only [_print_violations_in_files, hnone]
    · simp only [_print_violations_in_files]
      cases hv : f.violations with
      | none => rfl
      | some vs => rw [ih ⟨g, hgr, hnone⟩]

/-- A package that has a `File` key and holds a file with no `Violation` key
makes the package traversal fail. -/
theorem print_packages_keyerror :
    ∀ (ps : List Package),
      (∃ p ∈ ps, ∃ fs, p.files = some fs ∧
        ∃ f ∈ _safe_list_wrapper fs, f.violations = none) →
      _print_violations_in_packages ps = none := by
  intro ps
  induction ps with
  | nil => intro h; exact absurd h (by simp)
  | cons p rest ih =>
    intro h
    rcases h with ⟨q, hq, fs, hfs, hf⟩
    rcases List.mem_cons.mp hq with hqp | hqr
    · subst hqp
      simp only [_print_violations_in_packages, hfs]
      rw [print_files_keyerror _ _ hf]
    · simp only [_print_violations_in_packages]
      rw [ih ⟨q, hqr, fs, hfs, hf⟩]
      cases hpf : p.files with
      | none => rfl
      | some fs2 =>
        dsimp only
        cases _print_violations_in_files (if p.path = "" then "." else p.path)
            (_safe_list_wrapper fs2) <;> rfl

/-- C8 counterexample: a report whose only package holds a single `File`
element with zero `Violation` children.  The claim states the printer
processes such a file without error (returning a result with zero
contribution from that file); instead the traversal fails (`KeyError` in the
Python code), so `parse_xml_report` yields no result at all. -/
theorem parse_xml_report_keyerror_cx :
    parse_xml_report ⟨"1", .one ⟨"pkg", some (.one ⟨"c.groovy", none⟩)⟩⟩ = none := rfl

/-- C8 amended: every report in which some package has a `File` key whose
files include one with zero `Violation` children (no `Violation` key) makes
the printer fail with a `KeyError` instead of processing that file: the
column of packages with a `File` key is traversed and the lookup
`package_file["Violation"]` aborts the run. -/
theorem parse_xml_report_keyerror (r : Report)
    (h : ∃ p ∈ _safe_list_wrapper r.packages, ∃ fs, p.files = some fs ∧
      ∃ f ∈ _safe_list_wrapper fs, f.violations = none) :
    parse_xml_report r = none := by
  simp only [parse_xml_report]
  rw [print_packages_keyerror _ h]

/-- Witness for the amended C8 theorem at a concrete report. -/
theorem parse_xml_report_keyerror_witness :
    parse_xml_report ⟨"2", .many [⟨"p2", some (.many [⟨"d.groovy", none⟩])⟩]⟩ = none :=
  parse_xml_report_keyerror ⟨"2", .many [⟨"p2", some (.many [⟨"d.groovy", none⟩])⟩]⟩
    ⟨⟨"p2", some (.many [⟨"d.groovy", none⟩])⟩, by simp [_safe_list_wrapper],
      .many [⟨"d.groovy", none⟩], rfl,
      ⟨"d.groovy", none⟩, by simp [_safe_list_wrapper], rfl⟩

/-- C9: a package whose `@path` attribute is the empty string is printed
exactly as if its path were the single-dot placeholder `"."`, and under that
placeholder every violation line of a file reads `./<file>:<line>:
<ruleName>: <message>` rather than starting with the bare separator. -/
theorem empty_package_path_dot (p : Package) (rest : List Package)
    (h : p.path = "") (nm : String) (vs : OneOrMany Violation) :
    _print_violations_in_packages (p :: rest) =
      _print_violations_in_packages (⟨".", p.files⟩ :: rest) ∧
    _print_violations_in_files "." [⟨nm, some vs⟩] =
      some ((_safe_list_wrapper vs).map (fun v =>
          "./" ++ nm ++ ":" ++ v.lineNumber ++ ": " ++ v.ruleName ++ ": " ++ v.message),
        (_safe_list_wrapper vs).length) := by
  constructor
  · obtain ⟨path, files⟩ := p
    cases h
    rfl
  · simp [_print_violations_in_files, _print_violations]

/-- Witness for C9 at a concrete package and file. -/
theorem empty_package_path_dot_witness :
    _print_violations_in_packages [⟨"", some (.one ⟨"a.groovy", some (.one ⟨"Rule1", "3", "msg one"⟩)⟩)⟩] =
      _print_violations_in_packages [⟨".", some (.one ⟨"a.groovy", some (.one ⟨"Rule1", "3", "msg one"⟩)⟩)⟩] ∧
    _print_violations_in_files "." [⟨"a.groovy", some (.one ⟨"Rule1", "3", "msg one"⟩)⟩] =
      some ((_safe_list_wrapper (OneOrMany.one (⟨"Rule1", "3", "msg one"⟩ : Violation))).map (fun v =>
          "./" ++ "a.groovy" ++ ":" ++ v.lineNumber ++ ": " ++ v.ruleName ++ ": " ++ v.message),
        (_safe_list_wrapper (OneOrMany.one (⟨"Rule1", "3", "msg one"⟩ : Violation))).length) :=
  empty_package_path_dot
    ⟨"", some (.one ⟨"a.groovy", some (.one ⟨"Rule1", "3", "msg one"⟩)⟩)⟩
    [] rfl "a.groovy" (.one ⟨"Rule1", "3", "msg one"⟩)

/-- C3: whenever the captured output contains the compile-failure substring,
`run_codenarc` raises the compilation error and the report file is absent
afterwards, whatever the exit code and whatever was on disk. -/
theorem run_codenarc_compilation_failure (report_file : String)
    (output : ProcResult) (disk : Option String)
    (h : containsCompilationFailed output.stdout = true) :
    run_codenarc report_file output disk =
      (Except.error "Error when compiling files!", none) := by
  cases disk <;> simp [run_codenarc, h, _remove_report_file]

/-- Witness for C3: compile-failure marker present together with a nonzero
exit code and a report file on disk; the compilation error still wins. -/
theorem run_codenarc_compilation_failure_witness :
    containsCompilationFailed (ProcResult.mk "e: Compilation failed" 1).stdout = true ∧
    run_codenarc "codenarc-report.xml" ⟨"e: Compilation failed", 1⟩ (some "<xml/>") =
      (Except.error "Error when compiling files!", none) :=
  ⟨by decide, run_codenarc_compilation_failure "codenarc-report.xml"
    ⟨"e: Compilation failed", 1⟩ (some "<xml/>") (by decide)⟩

/-- C4: on every path through `run_codenarc` the report file is absent when
the call finishes, and removing an absent report file is a no-op. -/
theorem run_codenarc_leaves_no_report (report_file : String)
    (output : ProcResult) (disk : Option String) :
    (run_codenarc report_file output disk).2 = none ∧
    _remove_report_file none = none := by
  refine ⟨?_, rfl⟩
  cases disk <;> simp only [run_codenarc] <;> split_ifs <;> rfl

/-- C5: a nonzero exit code without the compile-failure marker makes
`run_codenarc` raise the tool-failure error, whose message carries that exit
code, and leaves no report file. -/
theorem run_codenarc_tool_failure (report_file : String) (output : ProcResult)
    (disk : Option String)
    (h1 : containsCompilationFailed output.stdout = false)
    (h2 : output.returncode ≠ 0) :
    run_codenarc report_file output disk =
      (Except.error ("CodeNarc failed with return code " ++ toString output.returncode),
       none) := by
  cases disk <;> simp [run_codenarc, h1, h2, _remove_report_file]

/-- Witness for C5 at exit code 2. -/
theorem run_codenarc_tool_failure_witness :
    containsCompilationFailed (ProcResult.mk "some log" 2).stdout = false ∧
    (ProcResult.mk "some log" 2).returncode ≠ 0 ∧
    run_codenarc "codenarc-report.xml" ⟨"some log", 2⟩ (some "<xml/>") =
      (Except.error ("CodeNarc failed with return code " ++ toString (2 : Int)), none) :=
  ⟨by decide, by decide, run_codenarc_tool_failure "codenarc-report.xml"
    ⟨"some log", 2⟩ (some "<xml/>") (by decide) (by decide)⟩

/-- C6: a zero exit code, no compile-failure marker, and an absent report
file make `run_codenarc` raise the missing-report error. -/
theorem run_codenarc_missing_report (report_file : String) (output : ProcResult)
    (h1 : containsCompilationFailed output.stdout = false)
    (h2 : output.returncode = 0) :
    run_codenarc report_file output none =
      (Except.error (report_file ++ " was not generated, aborting!"), none) := by
  simp [run_codenarc, h1, h2, _remove_report_file]

/-- Witness for C6 at the default report file name. -/
theorem run_codenarc_missing_report_witness :
    containsCompilationFailed (ProcResult.mk "CodeNarc completed" 0).stdout = false ∧
    (ProcResult.mk "CodeNarc completed" 0).returncode = 0 ∧
    run_codenarc "codenarc-report.xml" ⟨"CodeNarc completed", 0⟩ none =
      (Except.error ("codenarc-report.xml" ++ " was not generated, aborting!"), none) :=
  ⟨by decide, by decide, run_codenarc_missing_report "codenarc-report.xml"
    ⟨"CodeNarc completed", 0⟩ (by decide) (by decide)⟩

/-- C10: the external invocation is, in order: the `java` executable, the
classpath flag with the colon-joined classpath whose entries are the home
directory, the runtime lib wildcard, and the four jars of the three versioned
dependencies, then the main class, exactly the two fixed flags (rule-set
file, XML report path), and finally the passthrough options verbatim. -/
theorem codenarc_call_structure (a : Args) (report_file : String) :
    codenarc_call a report_file =
      ["java", "-classpath", String.intercalate ":" (classpath a),
       "org.codenarc.CodeNarc", "-rulesetfiles=ruleset.groovy",
       "-report=xml:" ++ report_file] ++ a.codenarc_options ∧
    classpath a =
      [a.home, a.groovy_home ++ "/lib/*"] ++
      [a.home ++ "/CodeNarc-" ++ a.codenarc_version ++ ".jar",
       a.home ++ "/GMetrics-" ++ a.gmetrics_version ++ ".jar",
       a.home ++ "/slf4j-" ++ a.slf4j_version ++ "/slf4j-api-" ++
         a.slf4j_version ++ ".jar",
       a.home ++ "/slf4j-" ++ a.slf4j_version ++ "/slf4j-simple-" ++
         a.slf4j_version ++ ".jar"] ∧
    (codenarc_call a report_file).drop 6 = a.codenarc_options :=
  ⟨rfl, rfl, List.drop_left' rfl⟩

end Groovylint
